/-
Verification of the GPU Tile Math Service job lifecycle core
(src/api/app/main.py, store.py, schemas.py, metrics.py, redis_backend.py).

The Python source is shallowly embedded: pure functions become Lean
functions, the mutable job record store becomes explicit record-passing,
machine integers are Nat with explicit masking mod 2^32, floats are
modelled exactly in ℚ (the kernel's arithmetic is a fixed deterministic
sequence of operations; all claims below concern equality of recomputed
values or structural facts, which the exact-rational model preserves),
and fallible code returns Except/Option.
-/
import Mathlib

namespace GpuTileMath

/-! ## SHA-256 (hashlib.sha256, as used by `_deterministic_checksum`)

A faithful executable SHA-256 over byte lists, with 32-bit words as
Nat masked mod 2^32. -/

def M32 : Nat := 4294967296

def mask32 (x : Nat) : Nat := x % M32

def rotr32 (n x : Nat) : Nat := (x >>> n) ||| ((x <<< (32 - n)) % M32)

/-- Ch(x,y,z) = (x ∧ y) ⊕ (¬x ∧ z), with ¬ as xor against the 32-bit mask. -/
def ch32 (x y z : Nat) : Nat := (x &&& y) ^^^ ((x ^^^ 4294967295) &&& z)

def maj32 (x y z : Nat) : Nat := (x &&& y) ^^^ (x &&& z) ^^^ (y &&& z)

def capSigma0 (x : Nat) : Nat := rotr32 2 x ^^^ rotr32 13 x ^^^ rotr32 22 x

def capSigma1 (x : Nat) : Nat := rotr32 6 x ^^^ rotr32 11 x ^^^ rotr32 25 x

def smlSigma0 (x : Nat) : Nat := rotr32 7 x ^^^ rotr32 18 x ^^^ (x >>> 3)

def smlSigma1 (x : Nat) : Nat := rotr32 17 x ^^^ rotr32 19 x ^^^ (x >>> 10)

/-- The 64 SHA-256 round constants of FIPS 180-4 (decimal). -/
def shaK : List Nat :=
  [1116352408, 1899447441, 3049323471, 3921009573, 961987163,
   1508970993, 2453635748, 2870763221, 3624381080, 310598401,
   607225278, 1426881987, 1925078388, 2162078206, 2614888103,
   3248222580, 3835390401, 4022224774, 264347078, 604807628,
   770255983, 1249150122, 1555081692, 1996064986, 2554220882,
   2821834349, 2952996808, 3210313671, 3336571891, 3584528711,
   113926993, 338241895, 666307205, 773529912, 1294757372,
   1396182291, 1695183700, 1986661051, 2177026350, 2456956037,
   2730485921, 2820302411, 3259730800, 3345764771, 3516065817,
   3600352804, 4094571909, 275423344, 430227734, 506948616,
   659060556, 883997877, 958139571, 1322822218, 1537002063,
   1747873779, 1955562222, 2024104815, 2227730452, 2361852424,
   2428436474, 2756734187, 3204031479, 3329325298]

structure Hash8 where
  a : Nat
  b : Nat
  c : Nat
  d : Nat
  e : Nat
  f : Nat
  g : Nat
  h : Nat
deriving DecidableEq

/-- The eight SHA-256 initial hash values of FIPS 180-4 (decimal). -/
def shaH0 : Hash8 :=
  ⟨1779033703, 3144134277, 1013904242, 2773480762,
   1359893119, 2600822924, 528734635, 1541459225⟩

/-- One step of the message-schedule extension: append word t from
words t-2, t-7, t-15, t-16. -/
def schedStep (w : List Nat) : List Nat :=
  w ++ [mask32 (smlSigma1 (w.getD (w.length - 2) 0) + w.getD (w.length - 7) 0 +
                smlSigma0 (w.getD (w.length - 15) 0) + w.getD (w.length - 16) 0)]

def extendW : Nat → List Nat → List Nat
  | 0, w => w
  | t + 1, w => extendW t (schedStep w)

def shaRound (st : Hash8) (kw : Nat × Nat) : Hash8 :=
  let t1 := mask32 (st.h + capSigma1 st.e + ch32 st.e st.f st.g + kw.1 + kw.2)
  let t2 := mask32 (capSigma0 st.a + maj32 st.a st.b st.c)
  ⟨mask32 (t1 + t2), st.a, st.b, st.c, mask32 (st.d + t1), st.e, st.f, st.g⟩

def compressBlock (h : Hash8) (block : List Nat) : Hash8 :=
  let w := extendW 48 block
  let s := (shaK.zip w).foldl shaRound h
  ⟨mask32 (h.a + s.a), mask32 (h.b + s.b), mask32 (h.c + s.c), mask32 (h.d + s.d),
   mask32 (h.e + s.e), mask32 (h.f + s.f), mask32 (h.g + s.g), mask32 (h.h + s.h)⟩

/-- Big-endian packing of bytes into 32-bit words. -/
def bytesToWords : List Nat → List Nat
  | a :: b :: c :: d :: rest => (a * 16777216 + b * 65536 + c * 256 + d) :: bytesToWords rest
  | _ => []

/-- Big-endian 64-bit encoding of the bit length. -/
def be64 (x : Nat) : List Nat :=
  [x / 72057594037927936 % 256, x / 281474976710656 % 256, x / 1099511627776 % 256,
   x / 4294967296 % 256, x / 16777216 % 256, x / 65536 % 256, x / 256 % 256, x % 256]

def padBytes (msg : List Nat) : List Nat :=
  msg ++ 128 :: List.replicate ((64 - ((msg.length + 9) % 64)) % 64) 0 ++ be64 (8 * msg.length)

def splitBlocks : Nat → List Nat → List (List Nat)
  | 0, _ => []
  | n + 1, ws => ws.take 16 :: splitBlocks n (ws.drop 16)

def sha256words (msg : List Nat) : Hash8 :=
  let ws := bytesToWords (padBytes msg)
  (splitBlocks (ws.length / 16) ws).foldl compressBlock shaH0

def hexDigit (n : Nat) : Char :=
  if n < 10 then Char.ofNat (48 + n) else Char.ofNat (87 + n)

def wordHex (x : Nat) : String :=
  String.mk ((List.range 8).map (fun i => hexDigit (x / 16 ^ (7 - i) % 16)))

def hash8Hex (h : Hash8) : String :=
  wordHex h.a ++ wordHex h.b ++ wordHex h.c ++ wordHex h.d ++
  wordHex h.e ++ wordHex h.f ++ wordHex h.g ++ wordHex h.h

/-- UTF-8 bytes of a string; all serialized payloads in this service are
ASCII, where a character's code point is its byte. -/
def strBytes (s : String) : List Nat := s.data.map Char.toNat

def sha256hex (s : String) : String := hash8Hex (sha256words (strBytes s))

/-! ## Schemas (src/api/app/schemas.py) -/

inductive DType where
  | fp16
  | fp32
deriving DecidableEq

def DType.str : DType → String
  | .fp16 => "fp16"
  | .fp32 => "fp32"

/-- `GemmSpec` from schemas.py: op tag, shape m/n/k, dtype, repeats, seed,
simulate flag, optional tile hints. -/
structure GemmSpec where
  op : String
  m : Nat
  n : Nat
  k : Nat
  dtype : DType
  repeats : Nat
  seed : Nat
  simulate : Bool
  tile_m : Option Nat
  tile_n : Option Nat
  tile_k : Option Nat
deriving DecidableEq

def tileOk : Option Nat → Bool
  | none => true
  | some v => decide (1 ≤ v ∧ v ≤ 256)

/-- The pydantic field constraints of `GemmSpec` (conint bounds, Literal op,
optional tile bounds). -/
def validSpec (s : GemmSpec) : Bool :=
  s.op == "gemm" &&
  decide (1 ≤ s.m ∧ s.m ≤ 1000000) &&
  decide (1 ≤ s.n ∧ s.n ≤ 1000000) &&
  decide (1 ≤ s.k ∧ s.k ≤ 1000000) &&
  decide (1 ≤ s.repeats ∧ s.repeats ≤ 10000) &&
  decide (s.seed ≤ 2147483647) &&
  tileOk s.tile_m && tileOk s.tile_n && tileOk s.tile_k

inductive JobState where
  | QUEUED
  | RUNNING
  | DONE
  | FAILED
deriving DecidableEq

/-! ## Canonical serialization and checksum
(`json.dumps(payload, sort_keys=True, separators=(",", ":"))` followed by
`hashlib.sha256(...).hexdigest()`, main.py `_deterministic_checksum`). -/

def boolJson (b : Bool) : String := if b then "true" else "false"

def optNatJson : Option Nat → String
  | none => "null"
  | some v => toString v

/-- JSON of a rational value. Python serializes the kernel's derived floats
via `repr`; the exact-rational model renders the exact value instead. No
claim depends on the rendered text, only on its determinism. -/
def ratJson (q : ℚ) : String := toString q

/-- The stably key-ordered (sort_keys=True) compact JSON of a spec dict as
produced by `model_dump()`: keys in sorted order dtype, k, m, n, op,
repeats, seed, simulate, tile_k, tile_m, tile_n. -/
def specJson (s : GemmSpec) : String :=
  "\x7b\"dtype\":\"" ++ s.dtype.str ++
  "\",\"k\":" ++ toString s.k ++
  ",\"m\":" ++ toString s.m ++
  ",\"n\":" ++ toString s.n ++
  ",\"op\":\"" ++ s.op ++
  "\",\"repeats\":" ++ toString s.repeats ++
  ",\"seed\":" ++ toString s.seed ++
  ",\"simulate\":" ++ boolJson s.simulate ++
  ",\"tile_k\":" ++ optNatJson s.tile_k ++
  ",\"tile_m\":" ++ optNatJson s.tile_m ++
  ",\"tile_n\":" ++ optNatJson s.tile_n ++ "\x7d"

/-- `_deterministic_checksum` applied to the full spec dict (simulate path). -/
def specChecksum (s : GemmSpec) : String := sha256hex (specJson s)

/-- The sorted-key JSON of the cpu_gemm checksum payload
\x7bm,n,k,seed,repeats,mean,var,l2\x7d: key order k, l2, m, mean, n,
repeats, seed, var. The l2 field itself is √l2sq in the source; the payload
here carries the exact radicand rendering (see `ratJson`). -/
def gemmPayloadJson (m n k seed repeats : Nat) (mean varv l2sq : ℚ) : String :=
  "\x7b\"k\":" ++ toString k ++
  ",\"l2\":" ++ ratJson l2sq ++
  ",\"m\":" ++ toString m ++
  ",\"mean\":" ++ ratJson mean ++
  ",\"n\":" ++ toString n ++
  ",\"repeats\":" ++ toString repeats ++
  ",\"seed\":" ++ toString seed ++
  ",\"var\":" ++ ratJson varv ++ "\x7d"

/-! ## Compute kernel (main.py `_cpu_gemm_summary` and the simulate path) -/

/-- Result summaries: the dicts built by the simulate path
(checksum/mode/note) and by `_cpu_gemm_summary` (mean/var/l2/checksum/mode).
The l2 entry is carried as its radicand l2sq (l2 = √l2sq). -/
inductive ResultSummary where
  | simulated (checksum : String) (note : String)
  | cpuGemm (mean varv l2sq : ℚ) (checksum : String)
deriving DecidableEq

def ResultSummary.mode : ResultSummary → String
  | .simulated _ _ => "simulated"
  | .cpuGemm _ _ _ _ => "cpu_gemm"

def ResultSummary.checksum : ResultSummary → String
  | .simulated c _ => c
  | .cpuGemm _ _ _ c => c

def simulateNote : String :=
  "Set simulate=false for tiny shapes to run CPU GEMM summary."

def kernelErrorMsg : String :=
  "Shape too large for CPU compute mode; set simulate=true."

def max_elems : Nat := 128 * 128

/-- The xorshift-ish generator `rand(i)` of `_cpu_gemm_summary`:
32-bit mixing of seed and index, scaled to [-0.5, 0.5]. -/
def randQ (seed i : Nat) : ℚ :=
  let x0 := (Nat.xor seed (i * 0x9E3779B9)) &&& 0xFFFFFFFF
  let x1 := Nat.xor x0 ((x0 <<< 13) &&& 0xFFFFFFFF)
  let x2 := Nat.xor x1 ((x1 >>> 17) &&& 0xFFFFFFFF)
  let x3 := Nat.xor x2 ((x2 <<< 5) &&& 0xFFFFFFFF)
  (x3 : ℚ) / 4294967295 - 1 / 2

/-- `A = [rand(i) for i in range(m * k)]`, row-major m×k. -/
def matA (m k seed : Nat) : List ℚ := (List.range (m * k)).map (randQ seed)

/-- `B = [rand(10_000_000 + i) for i in range(k * n)]`, row-major k×n. -/
def matB (k n seed : Nat) : List ℚ :=
  (List.range (k * n)).map (fun i => randQ seed (10000000 + i))

/-- One pass of the triple loop: every cell C[i*n+j] is overwritten with
the dot product of row i of A and column j of B, independent of the
incoming C. -/
def gemmPass (m n k : Nat) (A B : List ℚ) : List ℚ :=
  (List.range (m * n)).map (fun idx =>
    ((List.range k).map (fun kk =>
      A.getD ((idx / n) * k + kk) 0 * B.getD (kk * n + idx % n) 0)).sum)

/-- `for _ in range(repeats): ...` — each pass overwrites C wholesale. -/
def gemmRepeat (m n k : Nat) (A B : List ℚ) : Nat → List ℚ → List ℚ
  | 0, C => C
  | r + 1, _ => gemmRepeat m n k A B r (gemmPass m n k A B)

def gemmC (m n k seed repeats : Nat) : List ℚ :=
  gemmRepeat m n k (matA m k seed) (matB k n seed) repeats
    (List.replicate (m * n) (0 : ℚ))

def gemmMean (m n k seed repeats : Nat) : ℚ :=
  (gemmC m n k seed repeats).sum / (m * n : ℚ)

def gemmVar (m n k seed repeats : Nat) : ℚ :=
  let mean := gemmMean m n k seed repeats
  ((gemmC m n k seed repeats).map (fun x => (x - mean) * (x - mean))).sum / (m * n : ℚ)

def gemmL2sq (m n k seed repeats : Nat) : ℚ :=
  ((gemmC m n k seed repeats).map (fun x => x * x)).sum

def gemmChecksum (m n k seed repeats : Nat) : String :=
  sha256hex (gemmPayloadJson m n k seed repeats
    (gemmMean m n k seed repeats) (gemmVar m n k seed repeats)
    (gemmL2sq m n k seed repeats))

/-- `_cpu_gemm_summary`: hard size guard first (raising before any matrix is
generated), then the bounded GEMM summary. -/
def cpu_gemm_summary (m n k seed repeats : Nat) : Except String ResultSummary :=
  if max_elems < m * n ∨ max_elems < m * k ∨ max_elems < k * n then
    .error kernelErrorMsg
  else
    .ok (.cpuGemm (gemmMean m n k seed repeats) (gemmVar m n k seed repeats)
      (gemmL2sq m n k seed repeats) (gemmChecksum m n k seed repeats))

/-! ## Job record store (src/api/app/store.py) -/

/-- `JobRecord` from store.py; the record's id is the key under which the
store holds it. Timestamps are ℚ values of `time.time()`. -/
structure JobRecord where
  spec : GemmSpec
  state : JobState
  created_at : ℚ
  updated_at : ℚ
  started_at : Option ℚ
  finished_at : Option ℚ
  error : Option String
  result_summary : Option ResultSummary
  wall_time_ms : Option ℚ
  compute_time_ms : Option ℚ
deriving DecidableEq

/-- `create_job`: fresh record in state QUEUED with
created_at = updated_at = now and all optional fields null. -/
def create_job (spec : GemmSpec) (now : ℚ) : JobRecord :=
  ⟨spec, .QUEUED, now, now, none, none, none, none, none, none⟩

/-- `set_state`: updates state and updated_at; stores error only if
provided; sets started_at on first entry into RUNNING (guarded by the
`is None` check); sets finished_at on EVERY call with a terminal state
(the source has no `is None` guard on this branch). -/
def set_state (rec : JobRecord) (now : ℚ) (state : JobState)
    (error : Option String) : JobRecord :=
  { rec with
    state := state
    updated_at := now
    error := error.or rec.error
    started_at :=
      if state = .RUNNING ∧ rec.started_at = none then some now else rec.started_at
    finished_at :=
      if state = .DONE ∨ state = .FAILED then some now else rec.finished_at }

/-- `set_result`: updates result_summary, wall_time_ms, compute_time_ms
and updated_at. -/
def set_result (rec : JobRecord) (now : ℚ) (result_summary : Option ResultSummary)
    (wall_time_ms compute_time_ms : Option ℚ) : JobRecord :=
  { rec with
    updated_at := now
    result_summary := result_summary
    wall_time_ms := wall_time_ms
    compute_time_ms := compute_time_ms }

/-! ## Inline backend flow (main.py `submit_job`, in-memory branch) -/

/-- Kernel dispatch inside the try block: the simulate path builds the
checksum dict; the real path calls `_cpu_gemm_summary`, whose exception
becomes the `.error` case. -/
def kernelDispatch (spec : GemmSpec) : Except String ResultSummary :=
  if spec.simulate then
    .ok (.simulated (specChecksum spec) simulateNote)
  else
    cpu_gemm_summary spec.m spec.n spec.k spec.seed spec.repeats

/-- The inline submit_job flow as the sequence of store snapshots it
produces: after create_job, after set_state RUNNING, after set_result,
after the terminal set_state. `n1..n4` are the successive `time.time()`
values; `wallMs`/`computeMs` the measured perf_counter durations. -/
def inlineTrace (spec : GemmSpec) (n1 n2 n3 n4 wallMs computeMs : ℚ) :
    List JobRecord :=
  let r0 := create_job spec n1
  let r1 := set_state r0 n2 .RUNNING none
  match kernelDispatch spec with
  | .ok result =>
      let r2 := set_result r1 n3 (some result) (some wallMs) (some computeMs)
      [r0, r1, r2, set_state r2 n4 .DONE none]
  | .error msg =>
      let r2 := set_result r1 n3 none (some wallMs) none
      [r0, r1, r2, set_state r2 n4 .FAILED (some msg)]

/-- The record submit_job leaves in the store (last snapshot). -/
def runInline (spec : GemmSpec) (n1 n2 n3 n4 wallMs computeMs : ℚ) : JobRecord :=
  (inlineTrace spec n1 n2 n3 n4 wallMs computeMs).getLastD (create_job spec n1)

/-- submit_job returns `SubmitJobResponse(job_id=job_id)` on both the
success and the exception path: it never re-raises a kernel error. -/
def submit_job_inline (jobId : String) (spec : GemmSpec)
    (n1 n2 n3 n4 wallMs computeMs : ℚ) : String × JobRecord :=
  (jobId, runInline spec n1 n2 n3 n4 wallMs computeMs)

/-! ## Metrics (main.py lines 100-114, metrics.py `jobs_submitted_total`) -/

inductive Backend where
  | inmemory
  | redis
deriving DecidableEq

/-- Label tuple of `jobs_submitted_total`: (op, dtype, simulate-lowercased). -/
def submitLabel (spec : GemmSpec) : String × String × String :=
  (spec.op, spec.dtype.str, boolJson spec.simulate)

/-- The `jobs_submitted_total.labels(...).inc()` events fired during one
submit_job call, in source order: one increment before the backend branch,
and — in the redis branch only — a second identical increment before
returning. -/
def submitIncEvents (backend : Backend) (spec : GemmSpec) :
    List (String × String × String) :=
  [submitLabel spec] ++
    (match backend with
     | .redis => [submitLabel spec]
     | .inmemory => [])

/-- Increment events over M successive submit_job calls with the same spec. -/
def submitIncEventsN (backend : Backend) (spec : GemmSpec) :
    Nat → List (String × String × String)
  | 0 => []
  | M + 1 => submitIncEvents backend spec ++ submitIncEventsN backend spec M

/-- By how much the counter for a label combination grows: the number of
increment events carrying that label. -/
def counterDelta (events : List (String × String × String))
    (label : String × String × String) : Nat :=
  events.count label

/-! ## Status/result endpoints (main.py `get_job`, `get_result`) and the
Redis metadata source (redis_backend.py `get_meta`) -/

/-- The in-memory store: job id → record (`InMemoryJobStore._jobs`). -/
def Store := List (String × JobRecord)

/-- `store.get(job_id)`: dict lookup. -/
def store_get (st : Store) (jobId : String) : Option JobRecord :=
  List.lookup jobId st

/-- GET /v1/jobs/\x7bjob_id\x7d, in-memory branch: 404 when the id is
unknown, else the status fields of the record. -/
def get_job_inmem (st : Store) (jobId : String) : Except Nat JobRecord :=
  match store_get st jobId with
  | none => .error 404
  | some rec => .ok rec

/-- GET /v1/jobs/\x7bjob_id\x7d/result, in-memory branch: 404 when the id
is unknown, else (state, result_summary, error). -/
def get_result_inmem (st : Store) (jobId : String) :
    Except Nat (JobState × Option ResultSummary × Option String) :=
  match store_get st jobId with
  | none => .error 404
  | some rec => .ok (rec.state, rec.result_summary, rec.error)

/-- Redis metadata hashes: key → field/value pairs. The wire encoding of
present metadata (string-encoded floats parsed by `ffloat`) is transport
plumbing outside the lifecycle core; the claims below use only the
absent-key branch, which this models exactly: `hgetall` of an absent key
yields the empty hash, and `get_meta` maps the empty hash to None. -/
def RedisDB := List (String × List (String × String))

def redis_hgetall (db : RedisDB) (key : String) : List (String × String) :=
  (List.lookup key db).getD []

/-- `RedisJobBackend.get_meta`: None when the meta hash is empty/absent. -/
def redis_get_meta (db : RedisDB) (jobId : String) :
    Option (List (String × String)) :=
  let m := redis_hgetall db ("job:" ++ jobId ++ ":meta")
  if m = [] then none else some m

/-- GET /v1/jobs/\x7bjob_id\x7d, redis branch: 404 when get_meta is None. -/
def get_job_redis (db : RedisDB) (jobId : String) :
    Except Nat (List (String × String)) :=
  match redis_get_meta db jobId with
  | none => .error 404
  | some meta => .ok meta

/-- GET /v1/jobs/\x7bjob_id\x7d/result, redis branch: 404 when get_meta is
None; otherwise it also reads the result string key. -/
def get_result_redis (db : RedisDB) (results : List (String × String))
    (jobId : String) : Except Nat (List (String × String) × Option String) :=
  match redis_get_meta db jobId with
  | none => .error 404
  | some meta => .ok (meta, List.lookup ("job:" ++ jobId ++ ":result") results)

/-! ## Concrete specs used by witnesses and counterexamples -/

/-- The simulate-mode spec of test_jobs.py (m=n=k=4096, fp16, simulate). -/
def specSim : GemmSpec := ⟨"gemm", 4096, 4096, 4096, .fp16, 1, 1, true, none, none, none⟩

/-- The real-mode spec of test_jobs.py (m=n=k=16, repeats=2, seed=7). -/
def spec16 : GemmSpec := ⟨"gemm", 16, 16, 16, .fp32, 2, 7, false, none, none, none⟩

/-- Oversized real-mode spec (m=n=k=1000). -/
def spec1000 : GemmSpec := ⟨"gemm", 1000, 1000, 1000, .fp32, 1, 0, false, none, none, none⟩

/-! ## Helper lemmas -/

lemma gemmRepeat_succ (m n k : Nat) (A B : List ℚ) :
    ∀ r C, gemmRepeat m n k A B (r + 1) C = gemmPass m n k A B := by
  intro r
  induction r with
  | zero => intro C; rfl
  | succ r ih =>
      intro C
      show gemmRepeat m n k A B (r + 1) (gemmPass m n k A B) = gemmPass m n k A B
      exact ih _

lemma gemmC_collapse (m n k seed r : Nat) (h : 1 ≤ r) :
    gemmC m n k seed r = gemmC m n k seed 1 := by
  obtain ⟨r', rfl⟩ := Nat.exists_eq_add_of_le h
  unfold gemmC
  rw [Nat.add_comm 1 r', gemmRepeat_succ, gemmRepeat_succ]

lemma sumSq_nonneg (l : List ℚ) : 0 ≤ (l.map (fun x => x * x)).sum := by
  induction l with
  | nil => simp
  | cons x xs ih =>
      simp only [List.map_cons, List.sum_cons]
      exact add_nonneg (mul_self_nonneg x) ih

lemma kernelDispatch_simulate (s : GemmSpec) (h : s.simulate = true) :
    kernelDispatch s = .ok (.simulated (specChecksum s) simulateNote) := by
  simp [kernelDispatch, h]

/-! ## Claim theorems -/

/-- C1: for every valid spec with simulate=true, the simulated checksum is
the deterministic hash of the canonical stably key-ordered serialization —
two submissions whose spec fields all agree produce identical checksums —
and the inline job ends in state DONE with result_summary.mode =
"simulated" (and that checksum in the summary). -/
theorem simulate_checksum_deterministic_and_done
    (s t : GemmSpec) (n1 n2 n3 n4 w c : ℚ)
    (hv : validSpec s = true) (hsim : s.simulate = true)
    (hop : s.op = t.op) (hm : s.m = t.m) (hn : s.n = t.n) (hk : s.k = t.k)
    (hd : s.dtype = t.dtype) (hr : s.repeats = t.repeats)
    (hsd : s.seed = t.seed) (hsi : s.simulate = t.simulate)
    (htm : s.tile_m = t.tile_m) (htn : s.tile_n = t.tile_n)
    (htk : s.tile_k = t.tile_k) :
    specChecksum s = specChecksum t ∧
    (runInline s n1 n2 n3 n4 w c).state = .DONE ∧
    (runInline s n1 n2 n3 n4 w c).result_summary.map ResultSummary.mode =
      some "simulated" ∧
    (runInline s n1 n2 n3 n4 w c).result_summary.map ResultSummary.checksum =
      some (specChecksum s) := by
  have hst : s = t := by
    cases s; cases t; simp_all
  subst hst
  refine ⟨rfl, ?_, ?_, ?_⟩ <;>
    simp [runInline, inlineTrace, kernelDispatch_simulate s hsim,
      set_state, set_result, create_job, ResultSummary.mode, ResultSummary.checksum]

theorem simulate_checksum_deterministic_and_done_witness :
    validSpec specSim = true ∧ specSim.simulate = true ∧
    (specChecksum specSim = specChecksum specSim ∧
     (runInline specSim 0 1 2 3 0 0).state = .DONE ∧
     (runInline specSim 0 1 2 3 0 0).result_summary.map ResultSummary.mode =
       some "simulated" ∧
     (runInline specSim 0 1 2 3 0 0).result_summary.map ResultSummary.checksum =
       some (specChecksum specSim)) :=
  ⟨by decide, rfl,
   simulate_checksum_deterministic_and_done specSim specSim 0 1 2 3 0 0
     (by decide) rfl rfl rfl rfl rfl rfl rfl rfl rfl rfl rfl rfl⟩

/-- C2: with simulate=false and any of m·n, m·k, k·n above 128·128 = 16384,
the kernel rejects before computing; the inline backend catches the
exception, the job ends FAILED with the kernel's message verbatim, with
null compute_time_ms (and no result summary), and submit_job still
returns the job id. -/
theorem oversized_real_mode_fails_with_null_compute
    (s : GemmSpec) (jobId : String) (n1 n2 n3 n4 w c : ℚ)
    (hsim : s.simulate = false)
    (hbig : max_elems < s.m * s.n ∨ max_elems < s.m * s.k ∨
      max_elems < s.k * s.n) :
    (runInline s n1 n2 n3 n4 w c).state = .FAILED ∧
    (runInline s n1 n2 n3 n4 w c).error = some kernelErrorMsg ∧
    (runInline s n1 n2 n3 n4 w c).compute_time_ms = none ∧
    (runInline s n1 n2 n3 n4 w c).result_summary = none ∧
    (submit_job_inline jobId s n1 n2 n3 n4 w c).1 = jobId := by
  have hker : kernelDispatch s = .error kernelErrorMsg := by
    simp [kernelDispatch, hsim, cpu_gemm_summary, hbig]
  refine ⟨?_, ?_, ?_, ?_, rfl⟩ <;>
    simp [runInline, inlineTrace, hker, set_state, set_result, create_job,
      Option.or]

theorem oversized_real_mode_fails_with_null_compute_witness :
    spec1000.simulate = false ∧
    (max_elems < spec1000.m * spec1000.n ∨ max_elems < spec1000.m * spec1000.k ∨
      max_elems < spec1000.k * spec1000.n) ∧
    ((runInline spec1000 0 1 2 3 0 0).state = .FAILED ∧
     (runInline spec1000 0 1 2 3 0 0).error = some kernelErrorMsg ∧
     (runInline spec1000 0 1 2 3 0 0).compute_time_ms = none ∧
     (runInline spec1000 0 1 2 3 0 0).result_summary = none ∧
     (submit_job_inline "job-1" spec1000 0 1 2 3 0 0).1 = "job-1") :=
  ⟨rfl, by decide,
   oversized_real_mode_fails_with_null_compute spec1000 "job-1" 0 1 2 3 0 0
     rfl (by decide)⟩

/-- C3 (divergence demo): the store's set_state assigns finished_at on
every call with a terminal state — a second set_state(DONE) at a later
time overwrites finished_at, contradicting "set exactly once / unchanged
afterward"; started_at, by contrast, keeps its first value. -/
theorem finished_at_overwritten_on_second_terminal :
    (set_state (set_state (set_state (create_job specSim 0) 1 .RUNNING none)
        2 .DONE none) 3 .DONE none).finished_at = some 3 ∧
    (set_state (set_state (create_job specSim 0) 1 .RUNNING none)
        2 .DONE none).finished_at = some 2 ∧
    some (3 : ℚ) ≠ some (2 : ℚ) ∧
    (set_state (set_state (set_state (create_job specSim 0) 1 .RUNNING none)
        2 .DONE none) 3 .DONE none).started_at = some 1 := by
  refine ⟨rfl, rfl, by decide, rfl⟩

/-- C4 (divergence demo): over M submit_job calls with a fixed
(op, dtype, simulate) label combination, jobs_submitted_total for that
combination grows by exactly M under the in-memory backend but by 2·M
under the redis backend, which fires a second identical increment inside
its branch. -/
theorem submitted_counter_delta_by_backend (M : Nat) (s : GemmSpec) :
    counterDelta (submitIncEventsN .inmemory s M) (submitLabel s) = M ∧
    counterDelta (submitIncEventsN .redis s M) (submitLabel s) = 2 * M := by
  induction M with
  | zero => simp [submitIncEventsN, counterDelta]
  | succ M ih =>
      obtain ⟨ih1, ih2⟩ := ih
      constructor
      · simp [submitIncEventsN, counterDelta, List.count_append,
          submitIncEvents] at ih1 ⊢
        omega
      · simp [submitIncEventsN, counterDelta, List.count_append,
          submitIncEvents] at ih2 ⊢
        omega

/-- C5 counterexample: in the inline flow the third store snapshot — after
set_result, before the terminal set_state — pairs a non-null
result_summary with state RUNNING, refuting "result_summary is non-null
only when state = DONE at every observable point". -/
theorem result_summary_nonnull_while_running :
    ((inlineTrace specSim 0 1 2 3 0 0).getD 2
        (create_job specSim 0)).result_summary.isSome = true ∧
    ((inlineTrace specSim 0 1 2 3 0 0).getD 2
        (create_job specSim 0)).state = .RUNNING ∧
    ((inlineTrace specSim 0 1 2 3 0 0).getD 2
        (create_job specSim 0)).state ≠ .DONE := by
  refine ⟨rfl, rfl, by decide⟩

/-- C5 as amended: at every point of the inline flow, a non-null
result_summary co-occurs only with state DONE or with state RUNNING at the
single intermediate point between set_result and the terminal set_state
(snapshot index 2); it never co-occurs with QUEUED or FAILED. -/
theorem result_summary_nonnull_only_done_or_post_set_result
    (s : GemmSpec) (n1 n2 n3 n4 w c : ℚ) (i : Nat)
    (hsome : ((inlineTrace s n1 n2 n3 n4 w c).getD i
        (create_job s n1)).result_summary.isSome = true) :
    ((inlineTrace s n1 n2 n3 n4 w c).getD i (create_job s n1)).state = .DONE ∨
    (((inlineTrace s n1 n2 n3 n4 w c).getD i
        (create_job s n1)).state = .RUNNING ∧ i = 2) := by
  match hker : kernelDispatch s with
  | .ok result =>
      match i with
      | 0 => simp [inlineTrace, hker, create_job, set_state, set_result] at hsome
      | 1 => simp [inlineTrace, hker, create_job, set_state, set_result] at hsome
      | 2 =>
          right
          refine ⟨?_, rfl⟩
          simp [inlineTrace, hker, create_job, set_state, set_result]
      | 3 =>
          left
          simp [inlineTrace, hker, create_job, set_state, set_result]
      | (j + 4) =>
          simp [inlineTrace, hker, create_job, List.getD] at hsome
  | .error msg =>
      match i with
      | 0 => simp [inlineTrace, hker, create_job, set_state, set_result] at hsome
      | 1 => simp [inlineTrace, hker, create_job, set_state, set_result] at hsome
      | 2 => simp [inlineTrace, hker, create_job, set_state, set_result] at hsome
      | 3 => simp [inlineTrace, hker, create_job, set_state, set_result] at hsome
      | (j + 4) =>
          simp [inlineTrace, hker, create_job, List.getD] at hsome

theorem result_summary_nonnull_only_done_or_post_set_result_witness :
    ((inlineTrace spec16 0 1 2 3 0 0).getD 3
        (create_job spec16 0)).result_summary.isSome = true ∧
    (((inlineTrace spec16 0 1 2 3 0 0).getD 3
        (create_job spec16 0)).state = .DONE ∨
     (((inlineTrace spec16 0 1 2 3 0 0).getD 3
        (create_job spec16 0)).state = .RUNNING ∧ 3 = 2)) :=
  ⟨rfl, result_summary_nonnull_only_done_or_post_set_result
    spec16 0 1 2 3 0 0 3 rfl⟩

/-- C6: for every in-bounds shape, seed, and repeats ≥ 1, the real-mode
kernel's mean, var and l2 equal those for repeats = 1 — every repetition
overwrites C with identical values, so the repeat count does not change
the mathematical summary. -/
theorem repeats_do_not_change_summary (m n k seed r : Nat)
    (hr : 1 ≤ r)
    (_hb : m * n ≤ max_elems ∧ m * k ≤ max_elems ∧ k * n ≤ max_elems) :
    gemmMean m n k seed r = gemmMean m n k seed 1 ∧
    gemmVar m n k seed r = gemmVar m n k seed 1 ∧
    gemmL2sq m n k seed r = gemmL2sq m n k seed 1 ∧
    Real.sqrt (gemmL2sq m n k seed r) = Real.sqrt (gemmL2sq m n k seed 1) := by
  have hC := gemmC_collapse m n k seed r hr
  refine ⟨?_, ?_, ?_, ?_⟩ <;>
    simp [gemmMean, gemmVar, gemmL2sq, hC]

theorem repeats_do_not_change_summary_witness :
    1 ≤ 5 ∧
    (2 * 2 ≤ max_elems ∧ 2 * 2 ≤ max_elems ∧ 2 * 2 ≤ max_elems) ∧
    (gemmMean 2 2 2 7 5 = gemmMean 2 2 2 7 1 ∧
     gemmVar 2 2 2 7 5 = gemmVar 2 2 2 7 1 ∧
     gemmL2sq 2 2 2 7 5 = gemmL2sq 2 2 2 7 1 ∧
     Real.sqrt (gemmL2sq 2 2 2 7 5) = Real.sqrt (gemmL2sq 2 2 2 7 1)) :=
  ⟨by decide, by decide,
   repeats_do_not_change_summary 2 2 2 7 5 (by decide) (by decide)⟩

/-- C7: the inline job for m=n=k=16, repeats=2, seed=7, simulate=false
reaches DONE with result_summary.mode = "cpu_gemm" and a well-defined
(finite, here exact-rational) summary with l2² ≥ 0; and for every
in-bounds shape the matrices A and B — and hence the whole summary and
its checksum — are functions of (m, n, k, seed, repeats) alone, so
re-running an identical spec yields the identical checksum. -/
theorem cpu_gemm_16_done_and_seed_determinism
    (s t : GemmSpec) (n1 n2 n3 n4 w c : ℚ)
    (hm : s.m = t.m) (hn : s.n = t.n) (hk : s.k = t.k)
    (hsd : s.seed = t.seed) (hr : s.repeats = t.repeats) :
    (runInline spec16 n1 n2 n3 n4 w c).state = .DONE ∧
    (runInline spec16 n1 n2 n3 n4 w c).result_summary.map ResultSummary.mode =
      some "cpu_gemm" ∧
    0 ≤ gemmL2sq 16 16 16 7 2 ∧
    matA s.m s.k s.seed = matA t.m t.k t.seed ∧
    matB s.k s.n s.seed = matB t.k t.n t.seed ∧
    gemmChecksum s.m s.n s.k s.seed s.repeats =
      gemmChecksum t.m t.n t.k t.seed t.repeats := by
  have hker : kernelDispatch spec16 =
      .ok (.cpuGemm (gemmMean 16 16 16 7 2) (gemmVar 16 16 16 7 2)
        (gemmL2sq 16 16 16 7 2) (gemmChecksum 16 16 16 7 2)) := by
    simp [kernelDispatch, spec16, cpu_gemm_summary, max_elems]
  refine ⟨?_, ?_, ?_, ?_, ?_, ?_⟩
  · simp [runInline, inlineTrace, hker, set_state, set_result, create_job]
  · simp [runInline, inlineTrace, hker, set_state, set_result, create_job,
      ResultSummary.mode]
  · exact sumSq_nonneg _
  · rw [hm, hk, hsd]
  · rw [hn, hk, hsd]
  · rw [hm, hn, hk, hsd, hr]

theorem cpu_gemm_16_done_and_seed_determinism_witness :
    (spec16.m = spec16.m ∧ spec16.n = spec16.n ∧ spec16.k = spec16.k ∧
     spec16.seed = spec16.seed ∧ spec16.repeats = spec16.repeats) ∧
    ((runInline spec16 0 1 2 3 0 0).state = .DONE ∧
     (runInline spec16 0 1 2 3 0 0).result_summary.map ResultSummary.mode =
       some "cpu_gemm" ∧
     0 ≤ gemmL2sq 16 16 16 7 2 ∧
     matA spec16.m spec16.k spec16.seed = matA spec16.m spec16.k spec16.seed ∧
     matB spec16.k spec16.n spec16.seed = matB spec16.k spec16.n spec16.seed ∧
     gemmChecksum spec16.m spec16.n spec16.k spec16.seed spec16.repeats =
       gemmChecksum spec16.m spec16.n spec16.k spec16.seed spec16.repeats) :=
  ⟨⟨rfl, rfl, rfl, rfl, rfl⟩,
   cpu_gemm_16_done_and_seed_determinism spec16 spec16 0 1 2 3 0 0
     rfl rfl rfl rfl rfl⟩

/-- C8: for an identifier under which no job was ever created, both the
status read and the result read fail with the 404 NotFound error, under
the in-memory store and under the redis metadata source alike. -/
theorem unknown_id_404_both_backends
    (st : Store) (db : RedisDB) (results : List (String × String))
    (jobId : String)
    (h1 : store_get st jobId = none)
    (h2 : List.lookup ("job:" ++ jobId ++ ":meta") db = none) :
    get_job_inmem st jobId = .error 404 ∧
    get_result_inmem st jobId = .error 404 ∧
    get_job_redis db jobId = .error 404 ∧
    get_result_redis db results jobId = .error 404 := by
  have hmeta : redis_get_meta db jobId = none := by
    simp [redis_get_meta, redis_hgetall, h2]
  refine ⟨?_, ?_, ?_, ?_⟩ <;>
    simp [get_job_inmem, get_result_inmem, get_job_redis, get_result_redis,
      h1, hmeta]

theorem unknown_id_404_both_backends_witness :
    store_get [] "nosuchjob" = none ∧
    List.lookup ("job:" ++ "nosuchjob" ++ ":meta") ([] : RedisDB) = none ∧
    (get_job_inmem [] "nosuchjob" = .error 404 ∧
     get_result_inmem [] "nosuchjob" = .error 404 ∧
     get_job_redis [] "nosuchjob" = .error 404 ∧
     get_result_redis [] [] "nosuchjob" = .error 404) :=
  ⟨rfl, rfl, unknown_id_404_both_backends [] [] [] "nosuchjob" rfl rfl⟩

/-- C9: frame conditions of the store mutators. set_result touches only
result_summary, wall_time_ms, compute_time_ms and updated_at; set_state
touches only state, updated_at, error (only when one is provided, and
never clearing a stored error), started_at and finished_at — each leaves
every other record field unchanged, and the record's identity (its store
key) is untouched by both. -/
theorem store_mutator_frame_conditions
    (rec : JobRecord) (now : ℚ) (state : JobState) (err : Option String)
    (summary : Option ResultSummary) (wall compute : Option ℚ) :
    (set_state rec now state err).spec = rec.spec ∧
    (set_state rec now state err).created_at = rec.created_at ∧
    (set_state rec now state err).result_summary = rec.result_summary ∧
    (set_state rec now state err).wall_time_ms = rec.wall_time_ms ∧
    (set_state rec now state err).compute_time_ms = rec.compute_time_ms ∧
    (set_state rec now state err).error = err.or rec.error ∧
    rec.error.isSome ≤ (set_state rec now state err).error.isSome ∧
    (set_result rec now summary wall compute).spec = rec.spec ∧
    (set_result rec now summary wall compute).state = rec.state ∧
    (set_result rec now summary wall compute).error = rec.error ∧
    (set_result rec now summary wall compute).created_at = rec.created_at ∧
    (set_result rec now summary wall compute).started_at = rec.started_at ∧
    (set_result rec now summary wall compute).finished_at = rec.finished_at := by
  refine ⟨rfl, rfl, rfl, rfl, rfl, rfl, ?_, rfl, rfl, rfl, rfl, rfl, rfl⟩
  cases err <;> simp [set_state, Option.or]

/-- Two valid simulate-mode specs identical in every field except the
execution-unused tile_m hint. -/
def specTileA : GemmSpec := ⟨"gemm", 64, 64, 64, .fp32, 1, 0, true, none, none, none⟩

def specTileB : GemmSpec := ⟨"gemm", 64, 64, 64, .fp32, 1, 0, true, some 32, none, none⟩

set_option maxRecDepth 8000 in
/-- C10: the simulated checksum covers every spec field, including ones
execution ignores — two valid simulate=true specs identical except in
tile_m have different checksums, because the hash is over the full
serialized spec. -/
theorem checksum_covers_unused_fields :
    validSpec specTileA = true ∧ validSpec specTileB = true ∧
    specTileA.simulate = true ∧ specTileB.simulate = true ∧
    specTileA.op = specTileB.op ∧ specTileA.m = specTileB.m ∧
    specTileA.n = specTileB.n ∧ specTileA.k = specTileB.k ∧
    specTileA.dtype = specTileB.dtype ∧
    specTileA.repeats = specTileB.repeats ∧
    specTileA.seed = specTileB.seed ∧
    specTileA.tile_n = specTileB.tile_n ∧
    specTileA.tile_k = specTileB.tile_k ∧
    specTileA.tile_m ≠ specTileB.tile_m ∧
    specChecksum specTileA ≠ specChecksum specTileB := by
  refine ⟨by decide, by decide, rfl, rfl, rfl, rfl, rfl, rfl, rfl, rfl, rfl,
    rfl, rfl, by decide, by decide⟩

end GpuTileMath
